import Mathlib

/-
Shallow embedding of the validated interactive input pipeline of
src/utils/inputs.py (Quotient-Bot).

Modelling conventions
  * A routed incoming message is a `Message`: textual content plus attachment
    descriptors.  The routing predicate `check` passed to each helper is an
    arbitrary `Message → Bool`.
  * `ctx.bot.wait_for("message", check, timeout)` is modelled by scanning a
    finite list of incoming messages for the first one satisfying the
    predicate (`firstMatch`); an empty scan result models the timeout.
  * External collaborators (the discord.py converters, the HTTP session, the
    clock and dateparser) are parameters of the embedded functions:
    `resolveChannel / resolveRole / resolveMember : String → Option _`,
    `fetch : String → FetchOutcome`, `parse : String → Option Int` together
    with `now : Int` (timestamps in seconds).
  * Each helper returns a pair: the `ParseResult` (Ok / Timeout / Invalid,
    mirroring raising InputError) and a Bool recording whether a delete of
    the triggering message was attempted (`safe_delete` swallows failures, so
    only the attempt matters).
  * Invalid reasons are enums whose constructors correspond one-to-one to the
    raise sites in the source; the doc comments quote the message text.
  * Python string/int primitives are given executable models: `py_strip`
    (str.strip, over the four common ASCII whitespace characters), `py_lower`
    (str.lower, ASCII), `pyInt` (int(str): strip, optional sign, decimal
    digits; underscore digit separators are not modelled), and str(int) is
    Lean toString on Int, which agrees with Python on every integer.
-/

set_option autoImplicit false

namespace Inputs

/-- An attachment descriptor: declared media type and proxy URL
(discord.py Attachment.content_type is optional). -/
structure Attachment where
  content_type : Option String
  proxy_url : String
  deriving DecidableEq

/-- A routed incoming message: textual content plus attachment descriptors. -/
structure Message where
  content : String
  attachments : List Attachment
  deriving DecidableEq

/-- Permission flags of discord.Permissions, restricted to the flags the
input helpers read. -/
structure Permissions where
  read_messages : Bool
  send_messages : Bool
  embed_links : Bool
  manage_channels : Bool
  add_reactions : Bool
  use_external_emojis : Bool
  manage_permissions : Bool
  manage_messages : Bool
  administrator : Bool
  manage_roles : Bool
  kick_members : Bool
  ban_members : Bool
  deriving DecidableEq

/-- A resolved text channel; `perms` is channel.permissions_for(ctx.me),
the effective permissions of the bot in that channel. -/
structure Channel where
  id : Nat
  perms : Permissions
  deriving DecidableEq

/-- A resolved role.  discord.py compares roles by hierarchy position, so
`role > other` is modelled as comparison of `position`. -/
structure Role where
  managed : Bool
  position : Int
  permissions : Permissions
  deriving DecidableEq

/-- A resolved guild member. -/
structure Member where
  id : Nat
  deriving DecidableEq

/-- The parts of the command context that role_input reads: the positions of
the top roles of the bot and of the requesting author, the author id and the
guild owner id. -/
structure RoleCtx where
  me_top_position : Int
  author_top_position : Int
  author_id : Nat
  owner_id : Nat
  deriving DecidableEq

/-- ParseResult of the spec data model: Ok(value) / Timeout / Invalid(reason).
Raising InputError after asyncio.TimeoutError is Timeout; raising it (or a
converter error) on a resolved message is Invalid. -/
inductive ParseResult (α : Type) (E : Type) where
  | ok (v : α)
  | timeout
  | invalid (e : E)
  deriving DecidableEq

/-- First element of the list satisfying the predicate: the message that
resolves the wait.  `none` models the timeout of ctx.bot.wait_for. -/
def firstMatch (p : Message → Bool) : List Message → Option Message
  | [] => none
  | m :: ms => if p m then some m else firstMatch p ms

/-! ### Python string and int primitives -/

/-- str.strip(): drop leading and trailing whitespace.  (Python also strips
the rarer \x0b and \x0c characters, which Char.isWhitespace omits; no claim
depends on them.) -/
def py_strip (s : String) : String :=
  String.mk (((s.toList.dropWhile Char.isWhitespace).reverse.dropWhile
    Char.isWhitespace).reverse)

/-- str.lower(), ASCII range. -/
def py_lower (s : String) : String :=
  String.mk (s.toList.map Char.toLower)

/-- Value of a list of decimal digit characters. -/
def digitsVal (ds : List Char) : Nat :=
  List.foldl (fun acc c => 10 * acc + (c.toNat - 48)) 0 ds

/-- int(str): strip surrounding whitespace, optional single sign, nonempty
run of decimal digits; anything else raises ValueError (modelled as none).
Underscore digit separators accepted by Python are not modelled. -/
def pyInt (s : String) : Option Int :=
  match (py_strip s).toList with
  | [] => none
  | c :: rest =>
    if c = '-' then
      if rest.isEmpty then none
      else if rest.all Char.isDigit then some (-(digitsVal rest : Int)) else none
    else if c = '+' then
      if rest.isEmpty then none
      else if rest.all Char.isDigit then some ((digitsVal rest : Int)) else none
    else
      if (c :: rest).all Char.isDigit then some ((digitsVal (c :: rest) : Int))
      else none

/-! ### integer_input -/

/-- Result of integer_input.  `.error` models the final int(message.content)
raising ValueError after the wait resolved; it is proved unreachable. -/
inductive IntResult where
  | ok (v : Int)
  | timeout
  | error
  deriving DecidableEq

/-- Python truthiness of an optional int, as used by any(limits) and
all(limits): None and 0 are falsy. -/
def truthy : Option Int → Bool
  | none => false
  | some v => v != 0

/-- The length gate of new_check: when limits[1] is not None, content longer
than len(str(limits[1])) is rejected before the numeric parse. -/
def length_gate (high : Option Int) (content : String) : Bool :=
  match high with
  | some h => decide (content.length > (toString h).length)
  | none => false

/-- The bound checks of new_check after a successful parse, line for line:
if not any(limits): True; if all(limits): low <= digit <= high;
if low is not None: low <= digit; else: high <= digit.
The wildcard branches are unreachable (truthiness implies presence). -/
def bounds_ok (limits : Option Int × Option Int) (digit : Int) : Bool :=
  if ! (truthy limits.1 || truthy limits.2) then true
  else if truthy limits.1 && truthy limits.2 then
    match limits.1, limits.2 with
    | some low, some high => decide (low ≤ digit) && decide (digit ≤ high)
    | _, _ => true
  else
    match limits.1 with
    | some low => decide (low ≤ digit)
    | none =>
      match limits.2 with
      | some high => decide (high ≤ digit)
      | none => true

/-- integer_input.new_check: the acceptance predicate installed on the wait.
Routing predicate first; then the length gate; then int(content) (ValueError
is caught and rejects); then the bound checks. -/
def new_check (check : Message → Bool) (limits : Option Int × Option Int)
    (m : Message) : Bool :=
  if ! check m then false
  else if length_gate limits.2 m.content then false
  else
    match pyInt m.content with
    | none => false
    | some digit => bounds_ok limits digit

/-- integer_input: wait (with new_check) for the first acceptable message;
timeout raises InputError; otherwise optionally delete the message and
return int(message.content).  Second component: whether a delete of the
triggering message was attempted. -/
def integer_input (check : Message → Bool) (limits : Option Int × Option Int)
    (delete_after : Bool) (msgs : List Message) : IntResult × Bool :=
  match firstMatch (new_check check limits) msgs with
  | none => (IntResult.timeout, false)
  | some m =>
    match pyInt m.content with
    | some v => (IntResult.ok v, delete_after)
    | none => (IntResult.error, delete_after)

/-! ### channel_input -/

/-- Invalid reasons of channel_input.  `.notAChannel` is the converter
failure (spec: Invalid "not a channel"); `.missingBasePerms` is the raise
naming read_messages, send_messages, embed_links; `.missingStrictPerms` is
the raise naming add reactions, use external emojis, manage channel,
manage permissions, manage messages. -/
inductive ChannelFail where
  | notAChannel
  | missingBasePerms
  | missingStrictPerms
  deriving DecidableEq

/-- The base capability set required of every selected channel:
read_messages, send_messages, embed_links. -/
def basePermsOk (p : Permissions) : Bool :=
  p.read_messages && p.send_messages && p.embed_links

/-- The strict capability set required only when check_perms is on:
manage_channels, add_reactions, use_external_emojis, manage_permissions,
manage_messages. -/
def strictPermsOk (p : Permissions) : Bool :=
  p.manage_channels && p.add_reactions && p.use_external_emojis &&
    p.manage_permissions && p.manage_messages

/-- channel_input: wait for a routed message; timeout raises InputError;
resolve the content with TextChannelConverter (failure modelled as Invalid
notAChannel); require the base permission set, then the strict set when
check_perms; only then optionally delete the triggering message and return
the channel. -/
def channel_input (resolveChannel : String → Option Channel)
    (check : Message → Bool) (check_perms delete_after : Bool)
    (msgs : List Message) : ParseResult Channel ChannelFail × Bool :=
  match firstMatch check msgs with
  | none => (ParseResult.timeout, false)
  | some m =>
    match resolveChannel m.content with
    | none => (ParseResult.invalid ChannelFail.notAChannel, false)
    | some channel =>
      if ! basePermsOk channel.perms then
        (ParseResult.invalid ChannelFail.missingBasePerms, false)
      else if check_perms && ! strictPermsOk channel.perms then
        (ParseResult.invalid ChannelFail.missingStrictPerms, false)
      else (ParseResult.ok channel, delete_after)

/-! ### role_input -/

/-- Invalid reasons of role_input, one per raise site: converter failure,
integrated (managed) role, role above the top role of the bot, role above
the top role of the author, role with dangerous permissions. -/
inductive RoleFail where
  | notARole
  | managed
  | aboveBotTop
  | aboveAuthorTop
  | dangerousPerms
  deriving DecidableEq

/-- any(administrator, manage_channels, manage_roles, kick_members,
ban_members): the dangerous permission set of role_input. -/
def dangerousPermsAny (p : Permissions) : Bool :=
  p.administrator || p.manage_channels || p.manage_roles ||
    p.kick_members || p.ban_members

/-- role_input: wait for a routed message; resolve with RoleConverter;
reject managed roles; when hierarchy is on, reject a role above the top
role of the bot, then (unless the author owns the guild) above the top role
of the author; when check_perms is on, reject a role with any dangerous
permission; only then optionally delete the triggering message and return
the role. -/
def role_input (resolveRole : String → Option Role) (ctx : RoleCtx)
    (check : Message → Bool) (hierarchy check_perms delete_after : Bool)
    (msgs : List Message) : ParseResult Role RoleFail × Bool :=
  match firstMatch check msgs with
  | none => (ParseResult.timeout, false)
  | some m =>
    match resolveRole m.content with
    | none => (ParseResult.invalid RoleFail.notARole, false)
    | some role =>
      if role.managed then (ParseResult.invalid RoleFail.managed, false)
      else if hierarchy && decide (role.position > ctx.me_top_position) then
        (ParseResult.invalid RoleFail.aboveBotTop, false)
      else if hierarchy && (ctx.author_id != ctx.owner_id) &&
          decide (role.position > ctx.author_top_position) then
        (ParseResult.invalid RoleFail.aboveAuthorTop, false)
      else if check_perms && dangerousPermsAny role.permissions then
        (ParseResult.invalid RoleFail.dangerousPerms, false)
      else (ParseResult.ok role, delete_after)

/-- A permission set carrying only the administrator flag. -/
def adminOnlyPerms : Permissions :=
  ⟨false, false, false, false, false, false, false, false, true, false,
    false, false⟩

/-- A non-managed role carrying administrator, positioned at 10, above a
bot top role at 5. -/
def adminRoleAboveBot : Role := ⟨false, 10, adminOnlyPerms⟩

/-! ### member_input -/

/-- Invalid reason of member_input: the MemberConverter failure. -/
inductive MemberFail where
  | notAMember
  deriving DecidableEq

/-- member_input: wait for a routed message; resolve the content with
MemberConverter (failure modelled as Invalid notAMember); optionally delete
the triggering message and return the member. -/
def member_input (resolveMember : String → Option Member)
    (check : Message → Bool) (delete_after : Bool) (msgs : List Message) :
    ParseResult Member MemberFail × Bool :=
  match firstMatch check msgs with
  | none => (ParseResult.timeout, false)
  | some m =>
    match resolveMember m.content with
    | none => (ParseResult.invalid MemberFail.notAMember, false)
    | some mem => (ParseResult.ok mem, delete_after)

/-! ### time_input -/

/-- Invalid reason of time_input: the TypeError branch, raising
InputError "This is not a valid time format". -/
inductive TimeFail where
  | notAValidTimeFormat
  deriving DecidableEq

/-- time_input: wait for a routed message; dateparser.parse of the content
(its failure returns None, modelled as parse = none); optionally delete the
triggering message (this happens before the comparison, so the delete is
attempted even when the comparison then raises); if now > parsed, add
timedelta(hours = 24) (86400 seconds); comparing None raises TypeError,
caught and re-raised as the Invalid above.  Timestamps are seconds. -/
def time_input (parse : String → Option Int) (now : Int)
    (check : Message → Bool) (delete_after : Bool) (msgs : List Message) :
    ParseResult Int TimeFail × Bool :=
  match firstMatch check msgs with
  | none => (ParseResult.timeout, false)
  | some m =>
    match parse m.content with
    | none => (ParseResult.invalid TimeFail.notAValidTimeFormat, delete_after)
    | some parsed =>
      if now > parsed then (ParseResult.ok (parsed + 86400), delete_after)
      else (ParseResult.ok parsed, delete_after)

/-! ### image_input -/

/-- Outcome of the header fetch ctx.bot.session.get(content):
`.ok content_type` is a response whose content-type header is present
(some) or missing (none; reading it raises KeyError);
`.invalidURL` is aiohttp.InvalidURL, the only exception the source
suppresses; `.transportError` is any other transport failure
(connection, DNS, timeout), which the source does not catch. -/
inductive FetchOutcome where
  | ok (content_type : Option String)
  | invalidURL
  | transportError
  deriving DecidableEq

/-- Result of image_input.  `.ok none` is the explicit null result (content
"none", or fall-through with no match); `.raised` is an exception escaping
the helper (unsuppressed transport error, or KeyError on a missing
content-type header). -/
inductive ImageResult where
  | ok (url : Option String)
  | timeout
  | raised
  deriving DecidableEq

/-- The accepted media types _image_formats. -/
def image_formats : List String :=
  ["image/png", "image/jpeg", "image/jpg", "image/gif"]

/-- message.attachments and message.attachments[0].content_type in
_image_formats (a None content_type is not in the tuple). -/
def attachment_ok (m : Message) : Bool :=
  match m.attachments with
  | [] => false
  | a :: _ =>
    match a.content_type with
    | some t => image_formats.contains t
    | none => false

/-- The URL fall-through of image_input: result = None; fetch the content
as a URL suppressing only aiohttp.InvalidURL; on a response, read the
content-type header (KeyError escapes when missing) and accept the content
when the type is in _image_formats; return result. -/
def image_fetch_result (fetch : String → FetchOutcome) (delete_after : Bool)
    (m : Message) : ImageResult × Bool :=
  match fetch m.content with
  | FetchOutcome.invalidURL => (ImageResult.ok none, delete_after)
  | FetchOutcome.transportError => (ImageResult.raised, delete_after)
  | FetchOutcome.ok ct =>
    match ct with
    | none => (ImageResult.raised, delete_after)
    | some t =>
      if image_formats.contains t then
        (ImageResult.ok (some m.content), delete_after)
      else (ImageResult.ok none, delete_after)

/-- image_input: wait for a routed message; optionally delete it (first,
before any validation); content stripping and lowercasing to "none" returns
the explicit null value; a first attachment of an accepted media type
returns its proxy URL; otherwise the URL fall-through above. -/
def image_input (fetch : String → FetchOutcome) (check : Message → Bool)
    (delete_after : Bool) (msgs : List Message) : ImageResult × Bool :=
  match firstMatch check msgs with
  | none => (ImageResult.timeout, false)
  | some m =>
    if py_lower (py_strip m.content) = "none" then
      (ImageResult.ok none, delete_after)
    else if attachment_ok m then
      (ImageResult.ok (some ((m.attachments.headD ⟨none, ""⟩).proxy_url)),
        delete_after)
    else image_fetch_result fetch delete_after m

/-! ### Shared lemmas about the wait and the acceptance predicate -/

theorem firstMatch_pred {p : Message → Bool} {msgs : List Message} {m : Message}
    (h : firstMatch p msgs = some m) : p m = true := by
  induction msgs with
  | nil => simp [firstMatch] at h
  | cons a as ih =>
    by_cases ha : p a
    · simp [firstMatch, ha] at h
      subst h
      exact ha
    · simp [firstMatch, ha] at h
      exact ih h

theorem firstMatch_eq_none {p : Message → Bool} {msgs : List Message}
    (h : ∀ m ∈ msgs, p m = false) : firstMatch p msgs = none := by
  induction msgs with
  | nil => rfl
  | cons a as ih =>
    have ha := h a (List.mem_cons_self a as)
    simp [firstMatch, ha]
    exact ih fun m hm => h m (List.mem_cons_of_mem a hm)

theorem new_check_gate {check : Message → Bool} {low : Option Int} {high : Int}
    {m : Message} (h : m.content.length > (toString high).length) :
    new_check check (low, some high) m = false := by
  unfold new_check
  cases hc : check m with
  | false => simp
  | true => simp [length_gate, h]

theorem new_check_none_congr {check : Message → Bool} {low : Option Int}
    {m m' : Message} (h1 : check m = check m')
    (h2 : pyInt m.content = pyInt m'.content) :
    new_check check (low, none) m = new_check check (low, none) m' := by
  unfold new_check
  simp only [length_gate]
  rw [h1, h2]

theorem new_check_parse {check : Message → Bool}
    {limits : Option Int × Option Int} {m : Message}
    (h : new_check check limits m = true) : ∃ v, pyInt m.content = some v := by
  unfold new_check at h
  rcases hp : pyInt m.content with _ | v
  · rw [hp] at h
    split at h
    · exact absurd h (by simp)
    · split at h
      · exact absurd h (by simp)
      · exact absurd h (by simp)
  · exact ⟨v, rfl⟩

/-! ### Claim theorems -/

/-- C1: evaluation of the code at a failing input.  With limits (None, 5)
the acceptance predicate accepts content "7" (the only-high branch of
new_check tests high <= digit, not digit <= high) and rejects "3" even
though 3 <= 5; with limits (0, 5) it also accepts "7", because the Python
truthiness of 0 makes all(limits) false and the high bound is never
consulted.  integer_input therefore resolves to 7 although 7 > 5, against
the declared upper bound. -/
theorem integer_bounds_code_bug :
    new_check (fun _ => true) (none, some 5) ⟨"7", []⟩ = true ∧
    new_check (fun _ => true) (none, some 5) ⟨"3", []⟩ = false ∧
    new_check (fun _ => true) (some 0, some 5) ⟨"7", []⟩ = true ∧
    (integer_input (fun _ => true) (none, some 5) false [⟨"7", []⟩]).1 =
      IntResult.ok 7 ∧
    (7 : Int) > 5 ∧ (3 : Int) ≤ 5 := by
  decide

/-- C2: the digit-length gate applies exactly when an upper bound is
declared.  (1) With high = some h, any content longer than len(str(h)) is
rejected by the acceptance predicate; (3) hence a stream of such messages
only times out.  (2) With high = none, acceptance depends only on the
routing predicate and on the parsed value, never on the content length: no
digit-length gate is applied before parsing. -/
theorem integer_digit_length_gate :
    (∀ (check : Message → Bool) (low : Option Int) (high : Int) (m : Message),
      m.content.length > (toString high).length →
      new_check check (low, some high) m = false) ∧
    (∀ (check : Message → Bool) (low : Option Int) (m m' : Message),
      check m = check m' → pyInt m.content = pyInt m'.content →
      new_check check (low, none) m = new_check check (low, none) m') ∧
    (∀ (check : Message → Bool) (low : Option Int) (high : Int) (d : Bool)
      (msgs : List Message),
      (∀ m ∈ msgs, m.content.length > (toString high).length) →
      (integer_input check (low, some high) d msgs).1 = IntResult.timeout) := by
  refine ⟨fun check low high m h => new_check_gate h,
    fun check low m m' h1 h2 => new_check_none_congr h1 h2,
    fun check low high d msgs h => ?_⟩
  have hnone : firstMatch (new_check check (low, some high)) msgs = none :=
    firstMatch_eq_none fun m hm => new_check_gate (h m hm)
  simp [integer_input, hnone]

/-- C2 witness: with bounds (1, 15000) the six-character content "123456"
fails the acceptance predicate and the wait times out; without an upper
bound, the contents "123456" and " 123456 " (different lengths, same
parse) are treated identically. -/
theorem integer_digit_length_gate_witness :
    new_check (fun _ => true) (some 1, some 15000) ⟨"123456", []⟩ = false ∧
    (integer_input (fun _ => true) (some 1, some 15000) true
      [⟨"123456", []⟩]).1 = IntResult.timeout ∧
    new_check (fun _ => true) (some 1, none) ⟨"123456", []⟩ =
      new_check (fun _ => true) (some 1, none) ⟨" 123456 ", []⟩ :=
  ⟨integer_digit_length_gate.1 _ _ _ _ (by decide),
   integer_digit_length_gate.2.2 _ _ _ _ _ (by decide),
   integer_digit_length_gate.2.1 _ _ _ _ rfl (by decide)⟩

/-- C3: integer_input only ever returns Ok or Timeout, never Invalid and
never the modelled final-parse error; and a routed message failing the
acceptance predicate is silently skipped, the wait continuing on the rest
of the stream. -/
theorem integer_result_taxonomy :
    (∀ (check : Message → Bool) (limits : Option Int × Option Int) (d : Bool)
      (msgs : List Message),
      (∃ v, (integer_input check limits d msgs).1 = IntResult.ok v) ∨
      (integer_input check limits d msgs).1 = IntResult.timeout) ∧
    (∀ (check : Message → Bool) (limits : Option Int × Option Int) (d : Bool)
      (m : Message) (msgs : List Message), new_check check limits m = false →
      integer_input check limits d (m :: msgs) =
        integer_input check limits d msgs) := by
  constructor
  · intro check limits d msgs
    rcases hf : firstMatch (new_check check limits) msgs with _ | m
    · right
      simp [integer_input, hf]
    · obtain ⟨v, hv⟩ := new_check_parse (firstMatch_pred hf)
      left
      exact ⟨v, by simp [integer_input, hf, hv]⟩
  · intro check limits d m msgs h
    simp [integer_input, firstMatch, h]

/-- C3 witness: the non-integer content "abc" is skipped and the later
content "5" resolves the wait with Ok 5. -/
theorem integer_result_taxonomy_witness :
    ((∃ v, (integer_input (fun _ => true) (some 1, some 15000) false
      [⟨"abc", []⟩, ⟨"5", []⟩]).1 = IntResult.ok v) ∨
     (integer_input (fun _ => true) (some 1, some 15000) false
      [⟨"abc", []⟩, ⟨"5", []⟩]).1 = IntResult.timeout) ∧
    integer_input (fun _ => true) (some 1, some 15000) false
      [⟨"abc", []⟩, ⟨"5", []⟩] =
    integer_input (fun _ => true) (some 1, some 15000) false [⟨"5", []⟩] :=
  ⟨integer_result_taxonomy.1 _ _ _ _,
   integer_result_taxonomy.2 _ _ _ _ _ (by decide)⟩

/-- C4: for channel-kind and member-kind requests, a routed message whose
content the converter cannot resolve yields the Invalid result
(notAChannel, respectively notAMember): the Ok/Timeout/Invalid taxonomy
covers the unresolvable-token case. -/
theorem unresolvable_token_invalid :
    (∀ (resolveChannel : String → Option Channel) (check : Message → Bool)
      (cp d : Bool) (msgs : List Message) (m : Message),
      firstMatch check msgs = some m → resolveChannel m.content = none →
      (channel_input resolveChannel check cp d msgs).1 =
        ParseResult.invalid ChannelFail.notAChannel) ∧
    (∀ (resolveMember : String → Option Member) (check : Message → Bool)
      (d : Bool) (msgs : List Message) (m : Message),
      firstMatch check msgs = some m → resolveMember m.content = none →
      (member_input resolveMember check d msgs).1 =
        ParseResult.invalid MemberFail.notAMember) := by
  constructor
  · intro resolveChannel check cp d msgs m hf hr
    simp [channel_input, hf, hr]
  · intro resolveMember check d msgs m hf hr
    simp [member_input, hf, hr]

/-- C4 witness: a resolver that fails on the routed content "nonsense"
yields Invalid notAChannel and Invalid notAMember. -/
theorem unresolvable_token_invalid_witness :
    (channel_input (fun _ => none) (fun _ => true) true false
      [⟨"nonsense", []⟩]).1 = ParseResult.invalid ChannelFail.notAChannel ∧
    (member_input (fun _ => none) (fun _ => true) false
      [⟨"nonsense", []⟩]).1 = ParseResult.invalid MemberFail.notAMember :=
  ⟨unresolvable_token_invalid.1 _ _ _ _ _ _ rfl rfl,
   unresolvable_token_invalid.2 _ _ _ _ _ rfl rfl⟩

/-- C5 counterexample: with hierarchy and capability checks enabled, a role
carrying administrator but positioned above the top role of the bot yields
the hierarchy Invalid (aboveBotTop), not the dangerous-permissions Invalid:
the claimed outcome does not hold regardless of hierarchy position, because
role_input tests the hierarchy before the permission set. -/
theorem role_dangerous_hierarchy_counterexample :
    dangerousPermsAny adminRoleAboveBot.permissions = true ∧
    (role_input (fun _ => some adminRoleAboveBot) ⟨5, 5, 1, 2⟩ (fun _ => true)
      true true false [⟨"r", []⟩]).1 = ParseResult.invalid RoleFail.aboveBotTop ∧
    (role_input (fun _ => some adminRoleAboveBot) ⟨5, 5, 1, 2⟩ (fun _ => true)
      true true false [⟨"r", []⟩]).1 ≠
      ParseResult.invalid RoleFail.dangerousPerms := by
  decide

/-- C5 amended: with hierarchy and capability checks enabled, a resolved
role carrying a dangerous permission is never accepted; it yields Invalid
dangerousPerms when it passes the managed and hierarchy checks (not
managed, not above the top role of the bot, and either the author owns the
guild or the role is not above the top role of the author), while otherwise
the managed or hierarchy Invalid fires first. -/
theorem role_dangerous_perms_amended :
    ∀ (resolveRole : String → Option Role) (ctx : RoleCtx)
      (check : Message → Bool) (d : Bool) (msgs : List Message) (m : Message)
      (r : Role),
      firstMatch check msgs = some m → resolveRole m.content = some r →
      dangerousPermsAny r.permissions = true →
      ((∀ v, (role_input resolveRole ctx check true true d msgs).1 ≠
        ParseResult.ok v) ∧
       (r.managed = false → ¬(r.position > ctx.me_top_position) →
        (ctx.author_id = ctx.owner_id ∨ ¬(r.position > ctx.author_top_position)) →
        (role_input resolveRole ctx check true true d msgs).1 =
          ParseResult.invalid RoleFail.dangerousPerms)) := by
  intro resolveRole ctx check d msgs m r hf hr hdang
  constructor
  · intro v
    simp only [role_input, hf, hr]
    split_ifs <;> simp_all
  · intro hm hme hauth
    rcases hauth with hown | hpos
    · simp [role_input, hf, hr, hm, hme, hdang, hown]
    · simp [role_input, hf, hr, hm, hme, hpos, hdang]

/-- C5 witness: a non-managed administrator role positioned below both top
roles is rejected with Invalid dangerousPerms and is never accepted. -/
theorem role_dangerous_perms_amended_witness :
    (∀ v, (role_input (fun _ => some ⟨false, 3, adminOnlyPerms⟩) ⟨5, 5, 1, 2⟩
      (fun _ => true) true true false [⟨"r", []⟩]).1 ≠ ParseResult.ok v) ∧
    (role_input (fun _ => some ⟨false, 3, adminOnlyPerms⟩) ⟨5, 5, 1, 2⟩
      (fun _ => true) true true false [⟨"r", []⟩]).1 =
      ParseResult.invalid RoleFail.dangerousPerms :=
  ⟨(role_dangerous_perms_amended (fun _ => some ⟨false, 3, adminOnlyPerms⟩)
      ⟨5, 5, 1, 2⟩ (fun _ => true) false [⟨"r", []⟩] ⟨"r", []⟩
      ⟨false, 3, adminOnlyPerms⟩ rfl rfl (by decide)).1,
   (role_dangerous_perms_amended (fun _ => some ⟨false, 3, adminOnlyPerms⟩)
      ⟨5, 5, 1, 2⟩ (fun _ => true) false [⟨"r", []⟩] ⟨"r", []⟩
      ⟨false, 3, adminOnlyPerms⟩ rfl rfl (by decide)).2
     rfl (by decide) (Or.inr (by decide))⟩

/-- C6 counterexample: a transport error other than aiohttp.InvalidURL (a
connection failure, say) during the header fetch is not swallowed by
image_input: the helper lets the exception escape (modelled raised) instead
of returning the null no-match result, so the suspension does not end in
one of the three claimed ways. -/
theorem image_transport_error_counterexample :
    (image_input (fun _ => FetchOutcome.transportError) (fun _ => true) false
      [⟨"u", []⟩]).1 = ImageResult.raised ∧
    ImageResult.raised ≠ ImageResult.ok none ∧
    ImageResult.raised ≠ ImageResult.timeout := by
  decide

/-- C6 amended: only an invalid-URL error (aiohttp.InvalidURL, the sole
exception the source suppresses) during the header fetch is swallowed and
downgraded to the null no-match result; for a message that is not the
literal "none" and carries no accepted attachment, an invalid-URL fetch
outcome yields Ok none rather than an escaping error. -/
theorem image_invalid_url_swallowed :
    ∀ (fetch : String → FetchOutcome) (check : Message → Bool) (d : Bool)
      (msgs : List Message) (m : Message),
      firstMatch check msgs = some m →
      py_lower (py_strip m.content) ≠ "none" →
      attachment_ok m = false →
      fetch m.content = FetchOutcome.invalidURL →
      (image_input fetch check d msgs).1 = ImageResult.ok none := by
  intro fetch check d msgs m hf hn ha hfetch
  simp [image_input, hf, hn, ha, image_fetch_result, hfetch]

/-- C6 witness: an invalid-URL fetch outcome on content "u" yields the null
no-match result. -/
theorem image_invalid_url_swallowed_witness :
    (image_input (fun _ => FetchOutcome.invalidURL) (fun _ => true) false
      [⟨"u", []⟩]).1 = ImageResult.ok none :=
  image_invalid_url_swallowed _ _ _ _ _ rfl (by decide) rfl rfl

/-- C7 counterexample: a parsed timestamp more than 24 hours in the past is
rolled forward by exactly 86400 seconds but the returned timestamp still
lies in the past (86400 < now = 200000), against the claimed "lies in the
future". -/
theorem time_rollforward_counterexample :
    (time_input (fun _ => some 0) 200000 (fun _ => true) false
      [⟨"t", []⟩]).1 = ParseResult.ok 86400 ∧
    (200000 : Int) > 86400 := by
  decide

/-- C7 amended: for a resolved message, an unparseable content yields
Invalid notAValidTimeFormat; a parsed timestamp in the past (now > parsed)
is returned as parsed + 86400 seconds exactly (in the future only when the
parse lies less than 24 hours in the past); a parsed timestamp not in the
past is returned unchanged. -/
theorem time_input_amended :
    ∀ (parse : String → Option Int) (now : Int) (check : Message → Bool)
      (d : Bool) (msgs : List Message) (m : Message),
      firstMatch check msgs = some m →
      ((parse m.content = none →
        (time_input parse now check d msgs).1 =
          ParseResult.invalid TimeFail.notAValidTimeFormat) ∧
       (∀ p, parse m.content = some p → now > p →
        (time_input parse now check d msgs).1 = ParseResult.ok (p + 86400)) ∧
       (∀ p, parse m.content = some p → ¬(now > p) →
        (time_input parse now check d msgs).1 = ParseResult.ok p)) := by
  intro parse now check d msgs m hf
  refine ⟨fun hp => ?_, fun p hp hlt => ?_, fun p hp hge => ?_⟩
  · simp [time_input, hf, hp]
  · simp [time_input, hf, hp, hlt]
  · simp [time_input, hf, hp, hge]

/-- C7 witness: with now = 100, an unparseable content is Invalid, a parse
at 40 (past) returns 86440, a parse at 150 (future) returns 150. -/
theorem time_input_amended_witness :
    (time_input (fun _ => none) 100 (fun _ => true) false [⟨"t", []⟩]).1 =
      ParseResult.invalid TimeFail.notAValidTimeFormat ∧
    (time_input (fun _ => some 40) 100 (fun _ => true) false [⟨"t", []⟩]).1 =
      ParseResult.ok 86440 ∧
    (time_input (fun _ => some 150) 100 (fun _ => true) false [⟨"t", []⟩]).1 =
      ParseResult.ok 150 :=
  ⟨(time_input_amended (fun _ => none) 100 (fun _ => true) false [⟨"t", []⟩]
      ⟨"t", []⟩ rfl).1 rfl,
   (time_input_amended (fun _ => some 40) 100 (fun _ => true) false
      [⟨"t", []⟩] ⟨"t", []⟩ rfl).2.1 40 rfl (by decide),
   (time_input_amended (fun _ => some 150) 100 (fun _ => true) false
      [⟨"t", []⟩] ⟨"t", []⟩ rfl).2.2 150 rfl (by decide)⟩

/-- C8: on a resolvable channel, a missing send_messages always yields the
Invalid naming the base capability set (read_messages, send_messages,
embed_links), in strict and non-strict mode alike; a channel with the full
base set but a missing strict capability is accepted with check_perms off
and rejected with the Invalid naming the strict set (manage channel, add
reactions, use external emojis, manage permissions, manage messages) with
check_perms on. -/
theorem channel_capability_checks :
    ∀ (resolveChannel : String → Option Channel) (check : Message → Bool)
      (d : Bool) (msgs : List Message) (m : Message) (ch : Channel),
      firstMatch check msgs = some m → resolveChannel m.content = some ch →
      ((ch.perms.send_messages = false → ∀ cp,
        (channel_input resolveChannel check cp d msgs).1 =
          ParseResult.invalid ChannelFail.missingBasePerms) ∧
       (basePermsOk ch.perms = true → strictPermsOk ch.perms = false →
        (channel_input resolveChannel check false d msgs).1 =
          ParseResult.ok ch ∧
        (channel_input resolveChannel check true d msgs).1 =
          ParseResult.invalid ChannelFail.missingStrictPerms)) := by
  intro resolveChannel check d msgs m ch hf hr
  constructor
  · intro hsend cp
    simp [channel_input, hf, hr, basePermsOk, hsend]
  · intro hbase hstrict
    constructor
    · simp [channel_input, hf, hr, hbase]
    · simp [channel_input, hf, hr, hbase, hstrict]

/-- C8 witness: a channel with read and embed but no send is rejected with
the base-set Invalid in both modes; a channel with exactly the base set is
accepted in non-strict mode and rejected with the strict-set Invalid in
strict mode. -/
theorem channel_capability_checks_witness :
    (channel_input (fun _ => some ⟨1, ⟨true, false, true, false, false, false,
      false, false, false, false, false, false⟩⟩) (fun _ => true) false false
      [⟨"c", []⟩]).1 = ParseResult.invalid ChannelFail.missingBasePerms ∧
    (channel_input (fun _ => some ⟨1, ⟨true, false, true, false, false, false,
      false, false, false, false, false, false⟩⟩) (fun _ => true) true false
      [⟨"c", []⟩]).1 = ParseResult.invalid ChannelFail.missingBasePerms ∧
    (channel_input (fun _ => some ⟨2, ⟨true, true, true, false, false, false,
      false, false, false, false, false, false⟩⟩) (fun _ => true) false false
      [⟨"c", []⟩]).1 = ParseResult.ok ⟨2, ⟨true, true, true, false, false,
      false, false, false, false, false, false, false⟩⟩ ∧
    (channel_input (fun _ => some ⟨2, ⟨true, true, true, false, false, false,
      false, false, false, false, false, false⟩⟩) (fun _ => true) true false
      [⟨"c", []⟩]).1 = ParseResult.invalid ChannelFail.missingStrictPerms :=
  ⟨(channel_capability_checks (fun _ => some ⟨1, ⟨true, false, true, false,
      false, false, false, false, false, false, false, false⟩⟩)
      (fun _ => true) false [⟨"c", []⟩] ⟨"c", []⟩ _ rfl rfl).1 rfl false,
   (channel_capability_checks (fun _ => some ⟨1, ⟨true, false, true, false,
      false, false, false, false, false, false, false, false⟩⟩)
      (fun _ => true) false [⟨"c", []⟩] ⟨"c", []⟩ _ rfl rfl).1 rfl true,
   ((channel_capability_checks (fun _ => some ⟨2, ⟨true, true, true, false,
      false, false, false, false, false, false, false, false⟩⟩)
      (fun _ => true) false [⟨"c", []⟩] ⟨"c", []⟩ _ rfl rfl).2 rfl rfl).1,
   ((channel_capability_checks (fun _ => some ⟨2, ⟨true, true, true, false,
      false, false, false, false, false, false, false, false⟩⟩)
      (fun _ => true) false [⟨"c", []⟩] ⟨"c", []⟩ _ rfl rfl).2 rfl rfl).2⟩

/-- C9: a routed message whose content strips and lowercases to "none"
always resolves image_input to the explicit null-ok value, for every fetch
function and whatever attachments the message carries: never Invalid, no
attachment inspection, no network call. -/
theorem image_none_literal :
    ∀ (fetch : String → FetchOutcome) (check : Message → Bool) (d : Bool)
      (msgs : List Message) (m : Message),
      firstMatch check msgs = some m →
      py_lower (py_strip m.content) = "none" →
      (image_input fetch check d msgs).1 = ImageResult.ok none := by
  intro fetch check d msgs m hf hn
  simp [image_input, hf, hn]

/-- C9 witness: the content " NoNE " with an attached image and a fetch
that would fail with a transport error still resolves to the null-ok
value. -/
theorem image_none_literal_witness :
    (image_input (fun _ => FetchOutcome.transportError) (fun _ => true) false
      [⟨" NoNE ", [⟨some "image/png", "proxy"⟩]⟩]).1 = ImageResult.ok none :=
  image_none_literal (fun _ => FetchOutcome.transportError) (fun _ => true)
    false [⟨" NoNE ", [⟨some "image/png", "proxy"⟩]⟩]
    ⟨" NoNE ", [⟨some "image/png", "proxy"⟩]⟩ rfl (by decide)

/-- C10: with delete-on-success enabled, channel_input and role_input
attempt to delete the triggering message exactly when the result is Ok: a
message that resolves the wait but then fails any validation check
(unresolvable token, missing channel capability, managed role, hierarchy
violation, dangerous permissions) is never deleted. -/
theorem delete_only_after_checks :
    ∀ (resolveChannel : String → Option Channel)
      (resolveRole : String → Option Role) (ctx : RoleCtx)
      (check : Message → Bool) (cp hier : Bool) (msgs : List Message),
      ((channel_input resolveChannel check cp true msgs).2 = true ↔
        ∃ c, (channel_input resolveChannel check cp true msgs).1 =
          ParseResult.ok c) ∧
      ((role_input resolveRole ctx check hier cp true msgs).2 = true ↔
        ∃ r, (role_input resolveRole ctx check hier cp true msgs).1 =
          ParseResult.ok r) := by
  intro resolveChannel resolveRole ctx check cp hier msgs
  constructor
  · rcases hf : firstMatch check msgs with _ | m
    · simp [channel_input, hf]
    · rcases hc : resolveChannel m.content with _ | ch
      · simp [channel_input, hf, hc]
      · simp only [channel_input, hf, hc]
        split_ifs <;> simp
  · rcases hf : firstMatch check msgs with _ | m
    · simp [role_input, hf]
    · rcases hr : resolveRole m.content with _ | r
      · simp [role_input, hf, hr]
      · simp only [role_input, hf, hr]
        split_ifs <;> simp

/-- C10 witness: a channel with every needed capability is accepted and the
delete of the triggering message is attempted. -/
theorem delete_only_after_checks_witness :
    (channel_input (fun _ => some ⟨3, ⟨true, true, true, true, true, true,
      true, true, false, false, false, false⟩⟩) (fun _ => true) true true
      [⟨"c", []⟩]).2 = true :=
  (delete_only_after_checks (fun _ => some ⟨3, ⟨true, true, true, true, true,
      true, true, true, false, false, false, false⟩⟩) (fun _ => none)
      ⟨0, 0, 0, 0⟩ (fun _ => true) true true [⟨"c", []⟩]).1.mpr
    ⟨⟨3, ⟨true, true, true, true, true, true, true, true, false, false,
      false, false⟩⟩, by decide⟩

end Inputs
